import Mathlib

/-!
Verification of the PortfolioAI resume-scoring pipeline (`app.py`).

Python strings are modelled as lists of Unicode code points (`PyStr`), raw
bytes as lists of naturals below 256, and parsed JSON payloads as values of
an inductive `Json` type.  The external libraries (PyPDF2, python-docx, the
Groq client, `json.loads`) are modelled at their interfaces: each document
parse or provider call is represented by its observable result.
-/

namespace PortfolioAI

/-- A Python `str`: a finite sequence of Unicode code points. -/
abbrev PyStr := List Nat

/-- Embed a Lean string literal as a `PyStr` (its list of code points). -/
def pyStr (s : String) : PyStr := s.data.map Char.toNat

/-- A JSON value, as produced by `json.loads` on the provider payload.
Numbers are modelled as integers; every payload appearing in the spec and
the claims uses integer numbers only. -/
inductive Json where
  | null : Json
  | bool (b : Bool) : Json
  | num (n : Int) : Json
  | str (s : String) : Json
  | arr (elems : List Json) : Json
  | obj (fields : List (String × Json)) : Json

/-- Lookup `d[k]` on a parsed JSON value: `none` models the `KeyError`
raised for a missing key and the `TypeError` raised when indexing a
non-object with a string.  `json.loads` builds a `dict`, where a duplicated
key keeps its last value, hence the lookup on the reversed field list. -/
def dictGet (j : Json) (k : String) : Option Json :=
  match j with
  | .obj fields => (fields.reverse.find? (fun kv => kv.1 = k)).map (fun kv => kv.2)
  | _ => none

/-- Exceptions of the Python program.  `httpException` is FastAPI's
`HTTPException(status_code, detail)`; the others are the raw Python
exceptions that can escape or be caught inside `app.py`. -/
inductive PyErr where
  | httpException (status : Nat) (detail : String)
  | unicodeDecodeError
  | jsonDecodeError
  | keyError (key : String)
  | validationError (field : String)
  | providerError (msg : String)
  deriving DecidableEq

/-- The `str(e)` text used when an exception is interpolated into an
`HTTPException` detail (modelled loosely; no claim depends on the exact
wording of the interpolated cause, only on its presence). -/
def PyErr.describe : PyErr → String
  | .httpException _ d => d
  | .unicodeDecodeError => "invalid utf-8 byte sequence"
  | .jsonDecodeError => "json decode failure"
  | .keyError k => "KeyError " ++ k
  | .validationError f => "validation error for ResumeScore field " ++ f
  | .providerError m => m

/-- The pydantic model `ResumeScore(BaseModel)` of `app.py` lines 37-39:
`score : int` and `feedback : Dict[str, Any]` — the feedback dict is typed
as an arbitrary string-keyed object, with no inner structure required. -/
structure ResumeScore where
  score : Int
  feedback : List (String × Json)

/-- Pydantic coercion of a JSON value into the `int` field `score`: an
integer is accepted, an integral string is coerced (pydantic lax mode),
anything else is a validation error. -/
def pydanticInt : Json → Option Int
  | .num n => some n
  | .str s => s.toInt?
  | _ => none

/-- Lines 121-128 of `app.py`: the conversion of the parsed provider
payload into a `ResumeScore`.  `result_json["score"]` and
`result_json["feedback"]` raise `KeyError` when absent; the pydantic
constructor then validates `score` as an `int` and `feedback` as a `dict`.
No other key or inner field is inspected. -/
def validatePayload (j : Json) : Except PyErr ResumeScore :=
  match dictGet j "score" with
  | none => .error (.keyError "score")
  | some sv =>
    match dictGet j "feedback" with
    | none => .error (.keyError "feedback")
    | some fv =>
      match pydanticInt sv with
      | none => .error (.validationError "score")
      | some n =>
        match fv with
        | .obj fields => .ok { score := n, feedback := fields }
        | _ => .error (.validationError "feedback")

/-- The fixed feedback dict of the mock response (lines 81-85). -/
def mockFeedback : List (String × Json) :=
  [("strengths", .arr [.str "Strong education section", .str "Good experience details"]),
   ("weaknesses", .arr [.str "Missing quantifiable achievements", .str "Too verbose"]),
   ("improvements", .arr [.str "Add metrics to achievements", .str "Be more concise",
                          .str "Consider adding skills section"])]

/-- The mock `ResumeScore` returned when no API key is configured
(lines 79-86). -/
def mockResumeScore : ResumeScore := { score := 75, feedback := mockFeedback }

/-- The instruction part of the prompt f-string (lines 89-108), up to the
interpolation of `resume_text`. -/
def promptHeader : PyStr := pyStr ("\n        I have a resume that I\x27d like you to evaluate. Please analyze it carefully and provide:\n        \n        1. A numerical score from 0-100 reflecting the overall quality\n        2. Key strengths (at least 3)\n        3. Areas for improvement (at least 3)\n        4. Specific, actionable suggestions for making this resume more effective\n        \n        Focus on factors like: clarity, quantifiable achievements, relevance, formatting consistency, use of action verbs, \n        and overall impact. Please format your response as a JSON object with the following structure:\n        \x7b\n            \"score\": (numerical score),\n            \"feedback\": \x7b\n                \"strengths\": [(list of strengths)],\n                \"weaknesses\": [(list of weaknesses)],\n                \"improvements\": [(list of specific suggestions)]\n            \x7d\n        \x7d\n        \n        Here\x27s the resume text:\n        ")

/-- The text following the interpolated `resume_text` in the f-string. -/
def promptTrailer : PyStr := pyStr "\n        "

/-- The prompt built from the extracted resume text (the f-string of lines
89-110): instruction header ++ resume text (inserted verbatim) ++ trailing
whitespace. -/
def buildPrompt (resumeText : PyStr) : PyStr :=
  promptHeader ++ resumeText ++ promptTrailer

/-- The observable outcome of the single
`groq_client.chat.completions.create` call, as seen by `score_resume`:
either the call raises (transport/provider failure), or it returns a
message whose `content` string is represented here by its `json.loads`
result — `none` when the content is not valid JSON (`json.loads` raises),
`some j` when it parses to the JSON value `j`. -/
inductive ProviderOutcome where
  | failure (msg : String)
  | content (parsed : Option Json)

/-- The body of the `try` block of `score_resume` (lines 88-128): one
provider call on the built prompt, `json.loads` on the returned content,
then payload validation.  Every raised exception is reported in the error
component. -/
def liveScoreAttempt (resumeText : PyStr) (provider : PyStr → ProviderOutcome) :
    Except PyErr ResumeScore :=
  match provider (buildPrompt resumeText) with
  | .failure msg => .error (.providerError msg)
  | .content none => .error .jsonDecodeError
  | .content (some j) => validatePayload j

/-- The live-credential path of `score_resume`: the `try`/`except` of lines
88-130.  Any exception raised inside the `try` block is caught and
re-raised as `HTTPException(500, f"Error scoring resume: ...")`. -/
def score_resume_live (resumeText : PyStr) (provider : PyStr → ProviderOutcome) :
    Except PyErr ResumeScore :=
  match liveScoreAttempt resumeText provider with
  | .ok r => .ok r
  | .error e => .error (.httpException 500 ("Error scoring resume: " ++ e.describe))

/-- Lines 75-130, `score_resume(resume_text)`: when `GROQ_API_KEY` is falsy
(the empty string) the fixed mock result is returned before any provider
interaction; otherwise the live path runs. -/
def score_resume (apiKey : String) (resumeText : PyStr)
    (provider : PyStr → ProviderOutcome) : Except PyErr ResumeScore :=
  if apiKey = "" then .ok mockResumeScore
  else score_resume_live resumeText provider

/-- Number of provider invocations `score_resume` performs: none on the
mock path, exactly one on the live path (the code contains a single
`create` call and no retry loop). -/
def score_resume_providerCalls (apiKey : String) : Nat :=
  if apiKey = "" then 0 else 1

/-- Line 30: `GROQ_API_KEY = os.environ.get("GROQ_API_KEY", "")` — an unset
variable yields the empty string. -/
def GROQ_API_KEY (env : Option String) : String := env.getD ""

/-! ## UTF-8 decoding (the `.txt` path, line 71: `file_content.decode("utf-8")`)

Python's strict UTF-8 codec is embedded directly: a decoder over byte
lists that rejects malformed sequences (stray continuation bytes, overlong
forms, surrogates, out-of-range values) exactly as CPython's strict error
handler does, together with the corresponding encoder. -/

/-- A Unicode scalar value: a code point that a UTF-8 decoder may produce
(surrogates excluded). -/
abbrev ValidCodepoint (c : Nat) : Prop := c < 0xD800 ∨ (0xE000 ≤ c ∧ c < 0x110000)

/-- A decodable Python string: every code point is a Unicode scalar value
(a `str` containing lone surrogates is not UTF-8-encodable). -/
abbrev ValidPyStr (s : PyStr) : Prop := ∀ c ∈ s, ValidCodepoint c

/-- UTF-8 encoding of one code point (1-4 bytes by range). -/
def utf8EncodeChar (c : Nat) : List Nat :=
  if c < 0x80 then [c]
  else if c < 0x800 then [0xC0 + c / 0x40, 0x80 + c % 0x40]
  else if c < 0x10000 then [0xE0 + c / 0x1000, 0x80 + c / 0x40 % 0x40, 0x80 + c % 0x40]
  else [0xF0 + c / 0x40000, 0x80 + c / 0x1000 % 0x40, 0x80 + c / 0x40 % 0x40, 0x80 + c % 0x40]

/-- UTF-8 encoding of a whole string. -/
def utf8Encode (s : PyStr) : List Nat := (s.map utf8EncodeChar).flatten

/-- Continuation of a two-byte sequence led by `b0` (`0xC2 ≤ b0 < 0xE0`,
the leads `0xC0`/`0xC1` being overlong). -/
def utf8Cont2 (b0 : Nat) : List Nat → Option (Nat × List Nat)
  | b1 :: r =>
    if 0xC2 ≤ b0 ∧ 0x80 ≤ b1 ∧ b1 < 0xC0 then
      some ((b0 - 0xC0) * 0x40 + (b1 - 0x80), r)
    else none
  | [] => none

/-- Continuation of a three-byte sequence led by `b0` (`0xE0 ≤ b0 < 0xF0`),
rejecting overlong forms and surrogates. -/
def utf8Cont3 (b0 : Nat) : List Nat → Option (Nat × List Nat)
  | b1 :: b2 :: r =>
    if 0x80 ≤ b1 ∧ b1 < 0xC0 ∧ 0x80 ≤ b2 ∧ b2 < 0xC0 ∧
        0x800 ≤ (b0 - 0xE0) * 0x1000 + (b1 - 0x80) * 0x40 + (b2 - 0x80) ∧
        ValidCodepoint ((b0 - 0xE0) * 0x1000 + (b1 - 0x80) * 0x40 + (b2 - 0x80)) then
      some ((b0 - 0xE0) * 0x1000 + (b1 - 0x80) * 0x40 + (b2 - 0x80), r)
    else none
  | _ => none

/-- Continuation of a four-byte sequence led by `b0` (`0xF0 ≤ b0 < 0xF5`),
rejecting overlong forms and values above `0x10FFFF`. -/
def utf8Cont4 (b0 : Nat) : List Nat → Option (Nat × List Nat)
  | b1 :: b2 :: b3 :: r =>
    if b0 < 0xF5 ∧ 0x80 ≤ b1 ∧ b1 < 0xC0 ∧ 0x80 ≤ b2 ∧ b2 < 0xC0 ∧ 0x80 ≤ b3 ∧ b3 < 0xC0 ∧
        0x10000 ≤ (b0 - 0xF0) * 0x40000 + (b1 - 0x80) * 0x1000 + (b2 - 0x80) * 0x40 + (b3 - 0x80) ∧
        (b0 - 0xF0) * 0x40000 + (b1 - 0x80) * 0x1000 + (b2 - 0x80) * 0x40 + (b3 - 0x80) < 0x110000 then
      some ((b0 - 0xF0) * 0x40000 + (b1 - 0x80) * 0x1000 + (b2 - 0x80) * 0x40 + (b3 - 0x80), r)
    else none
  | _ => none

/-- Decode one UTF-8-encoded code point from the front of a byte list,
returning the code point and the remaining bytes.  Rejects continuation
bytes in lead position, the overlong leads `0xC0`/`0xC1`, truncated or
malformed continuations, overlong 3- and 4-byte forms, surrogates and
values above `0x10FFFF` — the strict checks of CPython's UTF-8 decoder. -/
def utf8DecodeChar : List Nat → Option (Nat × List Nat)
  | [] => none
  | b0 :: rest =>
    if b0 < 0x80 then some (b0, rest)
    else if b0 < 0xE0 then utf8Cont2 b0 rest
    else if b0 < 0xF0 then utf8Cont3 b0 rest
    else utf8Cont4 b0 rest

/-- Fuelled decoding loop; each step consumes at least one byte, so a fuel
equal to the byte count always suffices. -/
def utf8DecodeLoop : Nat → List Nat → Option PyStr
  | _, [] => some []
  | 0, _ :: _ => none
  | fuel + 1, b :: bs =>
    match utf8DecodeChar (b :: bs) with
    | none => none
    | some (c, rest) =>
      match utf8DecodeLoop fuel rest with
      | none => none
      | some cs => some (c :: cs)

/-- Strict UTF-8 decoding of a byte list: `none` models the
`UnicodeDecodeError` raised by `bytes.decode("utf-8")`. -/
def utf8Decode (bs : List Nat) : Option PyStr := utf8DecodeLoop bs.length bs

/-- Line 71 of `app.py`: `file_content.decode("utf-8")` — strict decoding,
raising `UnicodeDecodeError` on invalid bytes (never substituting
characters). -/
def bytesDecodeUtf8 (bs : List Nat) : Except PyErr PyStr :=
  match utf8Decode bs with
  | some s => .ok s
  | none => .error .unicodeDecodeError

/-! ## Document extraction -/

/-- What `PyPDF2.PdfReader` would expose for the uploaded bytes: either the
parse fails (corrupt container) or the document is a sequence of pages,
each represented by the text `page.extract_text()` returns for it (the
empty string for a page with no extractable text). -/
inductive PdfParse where
  | corrupt (msg : String)
  | pages (texts : List PyStr)

/-- What `docx.Document` exposes for the uploaded bytes: either the parse
fails or the document is a sequence of paragraph texts. -/
inductive DocxParse where
  | corrupt (msg : String)
  | paragraphs (texts : List PyStr)

/-- The page loop of lines 45-48 (and of the Gradio path, lines 149-151):
`text = ""` then `text += page.extract_text()` over the pages in document
order — left-fold concatenation with no separator. -/
def pdfPagesText (texts : List PyStr) : PyStr :=
  texts.foldl (fun acc t => acc ++ t) []

/-- Lines 41-50, `extract_text_from_pdf(file_content)`.  The body opens
with `with PyPDF2.PdfReader(io.BytesIO(file_content)) as pdf_reader:`, but
`PdfReader` does not implement the context-manager protocol (in PyPDF2
only `PdfMerger` does), so the `with` statement raises `AttributeError`
(`__enter__`) before any page is read; the `except` clause converts this
to `HTTPException(400, ...)`.  The page loop of lines 45-48 is dead code
on this path; its semantics is `pdfPagesText`, which the Gradio path runs
successfully without `with`. -/
def extract_text_from_pdf (_doc : PdfParse) : Except PyErr PyStr :=
  .error (.httpException 400 "Error extracting text from PDF: __enter__")

/-- The paragraph join of line 56: `"\n".join(paragraph.text for ...)`. -/
def docxParagraphsText (texts : List PyStr) : PyStr :=
  List.intercalate (pyStr "\n") texts

/-- Lines 52-59, `extract_text_from_docx(file_content)`: paragraph texts in
document order joined with a single newline; a parse failure becomes
`HTTPException(400, ...)`. -/
def extract_text_from_docx : DocxParse → Except PyErr PyStr
  | .corrupt msg => .error (.httpException 400 ("Error extracting text from DOCX: " ++ msg))
  | .paragraphs ts => .ok (docxParagraphsText ts)

/-- Python single-character `str.split(".")`: splits at every dot, keeping
empty segments, and returns at least one segment. -/
def splitOnDot : List Char → List (List Char)
  | [] => [[]]
  | c :: cs =>
    if c = '.' then [] :: splitOnDot cs
    else
      match splitOnDot cs with
      | [] => [[c]]
      | seg :: segs => (c :: seg) :: segs

/-- ASCII lower-casing of one character (`str.lower()` restricted to the
ASCII range, which covers every extension the dispatcher compares). -/
def asciiLower (c : Char) : Char :=
  if 'A' ≤ c ∧ c ≤ 'Z' then Char.ofNat (c.toNat + 32) else c

/-- Line 64: `file.filename.split(".")[-1].lower()` — the last
dot-separated segment of the declared name, lower-cased.  For a dot-free
name this is the whole name. -/
def fileExtension (filename : String) : String :=
  String.mk (((splitOnDot filename.data).getLastD []).map asciiLower)

/-- The uploaded file as `extract_text_from_resume` observes it: the
declared filename, the raw bytes (consumed by the `.txt` path), and the
results of handing those same bytes to each parsing library. -/
structure UploadedFile where
  filename : String
  bytes : List Nat
  pdf : PdfParse
  docx : DocxParse

/-- Lines 61-73, `extract_text_from_resume(file)`: dispatch on the
lower-cased last extension segment; unknown extensions raise
`HTTPException(400, "Unsupported file format. ...")`. -/
def extract_text_from_resume (file : UploadedFile) : Except PyErr PyStr :=
  let ext := fileExtension file.filename
  if ext = "pdf" then extract_text_from_pdf file.pdf
  else if ext = "docx" ∨ ext = "doc" then extract_text_from_docx file.docx
  else if ext = "txt" then bytesDecodeUtf8 file.bytes
  else .error (.httpException 400 "Unsupported file format. Please upload PDF, DOCX, or TXT file.")

/-- Lines 132-136, the `/score-resume/` endpoint: extraction then scoring,
each uncaught exception propagating to the framework. -/
def score_resume_api (apiKey : String) (file : UploadedFile)
    (provider : PyStr → ProviderOutcome) : Except PyErr ResumeScore :=
  match extract_text_from_resume file with
  | .error e => .error e
  | .ok text => score_resume apiKey text provider

/-- The extension the claim wording ascribes to a declared name: the
substring after the last dot when the name contains one, lower-cased;
a dot-free name has no extension. -/
def claimedExtension (filename : String) : Option String :=
  if filename.data.contains '.' then some (fileExtension filename) else none

/-! ## Helper lemmas on the UTF-8 embedding -/

lemma utf8Encode_nil : utf8Encode [] = [] := rfl

lemma utf8Encode_cons (c : Nat) (s : PyStr) :
    utf8Encode (c :: s) = utf8EncodeChar c ++ utf8Encode s := by
  simp [utf8Encode]

lemma utf8EncodeChar_length_pos (c : Nat) : 0 < (utf8EncodeChar c).length := by
  rw [utf8EncodeChar]
  split_ifs <;> simp

/-- Decoding the encoding of a valid code point consumes exactly its bytes
and recovers the code point. -/
lemma utf8DecodeChar_encode (c : Nat) (h : ValidCodepoint c) (rest : List Nat) :
    utf8DecodeChar (utf8EncodeChar c ++ rest) = some (c, rest) := by
  by_cases h1 : c < 0x80
  · rw [utf8EncodeChar, if_pos h1, List.cons_append, List.nil_append]
    simp only [utf8DecodeChar]
    rw [if_pos h1]
  · by_cases h2 : c < 0x800
    · rw [utf8EncodeChar, if_neg h1, if_pos h2]
      simp only [List.cons_append, List.nil_append, utf8DecodeChar]
      rw [if_neg (by omega), if_pos (by omega)]
      simp only [utf8Cont2]
      rw [if_pos (by omega)]
      simp only [Option.some.injEq, Prod.mk.injEq]
      exact ⟨by omega, trivial⟩
    · by_cases h3 : c < 0x10000
      · have hv : ValidCodepoint ((0xE0 + c / 0x1000 - 0xE0) * 0x1000 +
            (0x80 + c / 0x40 % 0x40 - 0x80) * 0x40 + (0x80 + c % 0x40 - 0x80)) := by
          simp only [ValidCodepoint] at h ⊢
          omega
        rw [utf8EncodeChar, if_neg h1, if_neg h2, if_pos h3]
        simp only [List.cons_append, List.nil_append, utf8DecodeChar]
        rw [if_neg (by omega), if_neg (by omega), if_pos (by omega)]
        simp only [utf8Cont3]
        rw [if_pos (by refine ⟨by omega, by omega, by omega, by omega, by omega, hv⟩)]
        simp only [Option.some.injEq, Prod.mk.injEq]
        exact ⟨by omega, trivial⟩
      · have h4 : c < 0x110000 := by simp only [ValidCodepoint] at h; omega
        rw [utf8EncodeChar, if_neg h1, if_neg h2, if_neg h3]
        simp only [List.cons_append, List.nil_append, utf8DecodeChar]
        rw [if_neg (by omega), if_neg (by omega), if_neg (by omega)]
        simp only [utf8Cont4]
        rw [if_pos (by omega)]
        simp only [Option.some.injEq, Prod.mk.injEq]
        exact ⟨by omega, trivial⟩

/-- Soundness of single-character decoding: a decoded code point is valid
and the consumed bytes are exactly its encoding. -/
lemma utf8DecodeChar_sound : ∀ {bs : List Nat} {c : Nat} {rest : List Nat},
    utf8DecodeChar bs = some (c, rest) → ValidCodepoint c ∧ utf8EncodeChar c ++ rest = bs := by
  intro bs c rest h
  match bs with
  | [] => simp [utf8DecodeChar] at h
  | b0 :: t =>
    simp only [utf8DecodeChar] at h
    by_cases h1 : b0 < 0x80
    · rw [if_pos h1] at h
      simp only [Option.some.injEq, Prod.mk.injEq] at h
      obtain ⟨hc, hr⟩ := h
      subst hc; subst hr
      refine ⟨by simp only [ValidCodepoint]; omega, ?_⟩
      rw [utf8EncodeChar, if_pos h1]
      simp
    · rw [if_neg h1] at h
      by_cases h2 : b0 < 0xE0
      · rw [if_pos h2] at h
        match t with
        | [] => simp [utf8Cont2] at h
        | b1 :: r =>
          simp only [utf8Cont2] at h
          split_ifs at h with hg
          simp only [Option.some.injEq, Prod.mk.injEq] at h
          obtain ⟨hc, hr⟩ := h
          subst hc; subst hr
          refine ⟨by simp only [ValidCodepoint]; omega, ?_⟩
          rw [utf8EncodeChar, if_neg (by omega), if_pos (by omega)]
          simp only [List.cons_append, List.nil_append, List.cons.injEq]
          refine ⟨by omega, by omega, trivial⟩
      · rw [if_neg h2] at h
        by_cases h3 : b0 < 0xF0
        · rw [if_pos h3] at h
          match t with
          | [] => simp [utf8Cont3] at h
          | [b1] => simp [utf8Cont3] at h
          | b1 :: b2 :: r =>
            simp only [utf8Cont3] at h
            split_ifs at h with hg
            simp only [Option.some.injEq, Prod.mk.injEq] at h
            obtain ⟨hc, hr⟩ := h
            subst hc; subst hr
            obtain ⟨hb1, hb1', hb2, hb2', hlo, hv⟩ := hg
            refine ⟨hv, ?_⟩
            rw [utf8EncodeChar, if_neg (by omega), if_neg (by omega),
              if_pos (by simp only [ValidCodepoint] at hv; omega)]
            simp only [List.cons_append, List.nil_append, List.cons.injEq]
            refine ⟨by omega, by omega, by omega, trivial⟩
        · rw [if_neg h3] at h
          match t with
          | [] => simp [utf8Cont4] at h
          | [b1] => simp [utf8Cont4] at h
          | [b1, b2] => simp [utf8Cont4] at h
          | b1 :: b2 :: b3 :: r =>
            simp only [utf8Cont4] at h
            split_ifs at h with hg
            simp only [Option.some.injEq, Prod.mk.injEq] at h
            obtain ⟨hc, hr⟩ := h
            subst hc; subst hr
            obtain ⟨hb0, hb1, hb1', hb2, hb2', hb3, hb3', hlo, hhi⟩ := hg
            refine ⟨by simp only [ValidCodepoint]; omega, ?_⟩
            rw [utf8EncodeChar, if_neg (by omega), if_neg (by omega), if_neg (by omega)]
            simp only [List.cons_append, List.nil_append, List.cons.injEq]
            refine ⟨by omega, by omega, by omega, by omega, trivial⟩

/-- Soundness of the decoding loop: a successful decode is valid and
re-encodes to the input bytes. -/
lemma utf8DecodeLoop_sound : ∀ (fuel : Nat) (bs : List Nat) (s : PyStr),
    utf8DecodeLoop fuel bs = some s → ValidPyStr s ∧ utf8Encode s = bs := by
  intro fuel
  induction fuel with
  | zero =>
    intro bs s h
    match bs with
    | [] =>
      simp only [utf8DecodeLoop, Option.some.injEq] at h
      subst h
      exact ⟨by intro c hc; simp at hc, rfl⟩
    | b :: t => simp [utf8DecodeLoop] at h
  | succ f ih =>
    intro bs s h
    match bs with
    | [] =>
      simp only [utf8DecodeLoop, Option.some.injEq] at h
      subst h
      exact ⟨by intro c hc; simp at hc, rfl⟩
    | b :: t =>
      simp only [utf8DecodeLoop] at h
      split at h
      · simp at h
      · rename_i c rest hd
        split at h
        · simp at h
        · rename_i cs hl
          simp only [Option.some.injEq] at h
          subst h
          obtain ⟨hvalid, henc⟩ := ih rest cs hl
          obtain ⟨hc, hb⟩ := utf8DecodeChar_sound hd
          refine ⟨?_, ?_⟩
          · intro x hx
            rcases List.mem_cons.mp hx with hx | hx
            · subst hx; exact hc
            · exact hvalid x hx
          · rw [utf8Encode_cons, henc, hb]

/-- Completeness of the decoding loop on encoded input, for any fuel at
least the byte count. -/
lemma utf8DecodeLoop_encode : ∀ (s : PyStr) (fuel : Nat), ValidPyStr s →
    (utf8Encode s).length ≤ fuel → utf8DecodeLoop fuel (utf8Encode s) = some s := by
  intro s
  induction s with
  | nil =>
    intro fuel _ _
    rw [utf8Encode_nil]
    match fuel with
    | 0 => simp [utf8DecodeLoop]
    | f + 1 => simp [utf8DecodeLoop]
  | cons c t ih =>
    intro fuel hv hlen
    have hvc : ValidCodepoint c := hv c (by simp)
    have hvt : ValidPyStr t := fun x hx => hv x (by simp [hx])
    rw [utf8Encode_cons] at hlen ⊢
    have hpos : 0 < (utf8EncodeChar c).length := utf8EncodeChar_length_pos c
    obtain ⟨b0, l, hbl⟩ : ∃ b0 l, utf8EncodeChar c = b0 :: l := by
      cases hE : utf8EncodeChar c with
      | nil => rw [hE] at hpos; simp at hpos
      | cons a as => exact ⟨a, as, rfl⟩
    rw [List.length_append] at hlen
    match fuel with
    | 0 => rw [hbl] at hlen; simp at hlen
    | f + 1 =>
      have hloop : utf8DecodeLoop f (utf8Encode t) = some t :=
        ih f hvt (by rw [hbl] at hlen; simp at hlen; omega)
      rw [hbl, List.cons_append]
      simp only [utf8DecodeLoop]
      rw [← List.cons_append, ← hbl, utf8DecodeChar_encode c hvc]
      simp [hloop]

/-- Round trip: decoding the UTF-8 encoding of a valid string recovers it. -/
lemma utf8Decode_encode (s : PyStr) (h : ValidPyStr s) :
    utf8Decode (utf8Encode s) = some s :=
  utf8DecodeLoop_encode s _ h (le_refl _)

/-- Soundness: decoding only succeeds on genuine UTF-8 encodings, and
returns exactly the encoded string. -/
lemma utf8Decode_sound {bs : List Nat} {s : PyStr} (h : utf8Decode bs = some s) :
    ValidPyStr s ∧ utf8Encode s = bs :=
  utf8DecodeLoop_sound _ _ _ h

/-! ## Helper lemmas on concatenation -/

lemma foldl_append_eq_flatten (ps : List PyStr) :
    ∀ acc : PyStr, ps.foldl (fun a t => a ++ t) acc = acc ++ ps.flatten := by
  induction ps with
  | nil => intro acc; simp
  | cons p ps ih => intro acc; simp [List.foldl_cons, ih]

/-- The example payload of the claims with all three feedback arrays. -/
def completePayload : Json :=
  .obj [("score", .num 82),
        ("feedback", .obj [("strengths", .arr [.str "a"]),
                           ("weaknesses", .arr []),
                           ("improvements", .arr [.str "b", .str "c"])])]

/-- The example payload of the claims whose feedback object carries only
`strengths`. -/
def missingKeysPayload : Json :=
  .obj [("score", .num 82), ("feedback", .obj [("strengths", .arr [.str "a"])])]

/-- No string encodes to the single byte `0xFF`. -/
lemma utf8Encode_ne_ff : ∀ t : PyStr, utf8Encode t ≠ [0xFF] := by
  intro t h
  match t with
  | [] => simp [utf8Encode] at h
  | c :: t' =>
    rw [utf8Encode_cons] at h
    by_cases h1 : c < 0x80
    · rw [utf8EncodeChar, if_pos h1] at h
      simp only [List.cons_append, List.nil_append, List.cons.injEq] at h
      omega
    · have h2 : 2 ≤ (utf8EncodeChar c).length := by
        rw [utf8EncodeChar, if_neg h1]
        split_ifs <;> simp
      have h3 := congrArg List.length h
      rw [List.length_append] at h3
      simp at h3
      omega

/-! ## Claim theorems -/

/-- Claim C1, counterexample: the payload whose feedback object lacks
`weaknesses` and `improvements` is accepted with score 82 and exactly that
feedback object — it is not rejected, because the conversion never inspects
the inner feedback keys. -/
theorem c1_missing_keys_accepted :
    validatePayload missingKeysPayload =
      .ok { score := 82, feedback := [("strengths", .arr [.str "a"])] } := rfl

/-- Claim C1, amended: the conversion requires only a `score` key holding an
integer and a `feedback` key holding a JSON object; both example payloads
are accepted (the full one with score 82 and exactly its three arrays), a
payload missing `score` or `feedback` raises a `KeyError` naming that key,
and a mistyped `score` (e.g. a boolean) or `feedback` (e.g. an array) is a
pydantic validation error — all of which the caller wraps as the generic
500 scoring error rather than a distinct MalformedResponse. -/
theorem c1_validation_shape (j : Json) :
    validatePayload completePayload =
      .ok { score := 82,
            feedback := [("strengths", .arr [.str "a"]),
                         ("weaknesses", .arr []),
                         ("improvements", .arr [.str "b", .str "c"])] }
    ∧ (dictGet j "score" = none → validatePayload j = .error (.keyError "score"))
    ∧ (∀ sv, dictGet j "score" = some sv → dictGet j "feedback" = none →
        validatePayload j = .error (.keyError "feedback"))
    ∧ (∀ n fields, dictGet j "score" = some (.num n) →
        dictGet j "feedback" = some (.obj fields) →
        validatePayload j = .ok { score := n, feedback := fields })
    ∧ (∀ b fv, dictGet j "score" = some (.bool b) → dictGet j "feedback" = some fv →
        validatePayload j = .error (.validationError "score"))
    ∧ (∀ n elems, dictGet j "score" = some (.num n) →
        dictGet j "feedback" = some (.arr elems) →
        validatePayload j = .error (.validationError "feedback")) := by
  refine ⟨rfl, ?_, ?_, ?_, ?_, ?_⟩
  · intro h; simp [validatePayload, h]
  · intro sv h1 h2; simp [validatePayload, h1, h2]
  · intro n fields h1 h2; simp [validatePayload, h1, h2, pydanticInt]
  · intro b fv h1 h2; simp [validatePayload, h1, h2, pydanticInt]
  · intro n elems h1 h2; simp [validatePayload, h1, h2, pydanticInt]

/-- Witness for C1: a payload with no keys at all fails on `score`. -/
theorem c1_validation_shape_witness :
    validatePayload (.obj []) = .error (.keyError "score") :=
  (c1_validation_shape (.obj [])).2.1 rfl

/-- Claim C2, counterexample: a provider payload with score 150 flows
through the live scoring path and is returned as-is — neither rejected nor
clamped to [0,100]. -/
theorem c2_out_of_range_accepted :
    score_resume "k" (pyStr "resume")
        (fun _ => .content (some (.obj [("score", .num 150), ("feedback", .obj [])]))) =
      .ok { score := 150, feedback := [] }
    ∧ ¬((150 : Int) ≤ 100) :=
  ⟨rfl, by decide⟩

/-- Claim C2, amended: the conversion does not constrain the score value —
any integer in a well-typed payload is returned unchanged — so only the
mock result carries a score guaranteed to lie in [0,100]. -/
theorem c2_score_unvalidated (n : Int) (fields : List (String × Json)) :
    validatePayload (.obj [("score", .num n), ("feedback", .obj fields)]) =
      .ok { score := n, feedback := fields }
    ∧ mockResumeScore.score = 75 ∧ (0 : Int) ≤ 75 ∧ (75 : Int) ≤ 100 := by
  refine ⟨?_, rfl, by decide, by decide⟩
  simp [validatePayload, dictGet, List.find?, pydanticInt]

/-- Claim C3, counterexample: the dot-free filename `pdf` has no extension
under the claim wording, so the claim requires UnsupportedFormat; the
dispatcher instead treats the whole name as the extension and routes to the
PDF extractor, whose 400 detail differs from the UnsupportedFormat one. -/
theorem c3_dotless_name_routed :
    claimedExtension "pdf" = none
    ∧ extract_text_from_resume ⟨"pdf", [], .pages [], .paragraphs []⟩ =
        .error (.httpException 400 "Error extracting text from PDF: __enter__")
    ∧ "Error extracting text from PDF: __enter__" ≠
        "Unsupported file format. Please upload PDF, DOCX, or TXT file." :=
  ⟨rfl, rfl, by decide⟩

/-- Claim C3, amended: the dispatcher keys on the lower-cased last
dot-separated segment of the declared name (for a dotted name this is the
substring after the last dot; for a dot-free name it is the whole name):
`pdf` routes to the PDF extractor, `docx`/`doc` to the DOCX extractor,
`txt` to UTF-8 decoding, and every other segment — including a dot-free
name that is not itself a supported extension — fails with the
UnsupportedFormat 400 error. -/
theorem c3_dispatch (file : UploadedFile) :
    (∀ ext, claimedExtension file.filename = some ext → ext = fileExtension file.filename)
    ∧ (fileExtension file.filename = "pdf" →
        extract_text_from_resume file = extract_text_from_pdf file.pdf)
    ∧ (fileExtension file.filename = "docx" ∨ fileExtension file.filename = "doc" →
        extract_text_from_resume file = extract_text_from_docx file.docx)
    ∧ (fileExtension file.filename = "txt" →
        extract_text_from_resume file = bytesDecodeUtf8 file.bytes)
    ∧ (fileExtension file.filename ∉ ["pdf", "docx", "doc", "txt"] →
        extract_text_from_resume file =
          .error (.httpException 400
            "Unsupported file format. Please upload PDF, DOCX, or TXT file.")) := by
  refine ⟨?_, ?_, ?_, ?_, ?_⟩
  · intro ext h
    unfold claimedExtension at h
    split_ifs at h
    simpa using h.symm
  · intro h
    simp only [extract_text_from_resume]
    rw [if_pos h]
  · intro h
    simp only [extract_text_from_resume]
    rcases h with h | h <;> rw [h] <;> simp
  · intro h
    simp only [extract_text_from_resume]
    rw [h]
    simp
  · intro h
    simp only [List.mem_cons, List.not_mem_nil, or_false, not_or] at h
    obtain ⟨h1, h2, h3, h4⟩ := h
    simp only [extract_text_from_resume]
    rw [if_neg h1, if_neg (not_or.mpr ⟨h2, h3⟩), if_neg h4]

/-- Witness for C3: a PDF upload with an upper-case extension routes to the
PDF extractor; a TXT upload routes to UTF-8 decoding. -/
theorem c3_dispatch_witness :
    extract_text_from_resume ⟨"resume.PDF", [], .pages [pyStr "A"], .paragraphs []⟩ =
      extract_text_from_pdf (.pages [pyStr "A"])
    ∧ extract_text_from_resume ⟨"notes.TXT", [104], .corrupt "x", .corrupt "y"⟩ =
      bytesDecodeUtf8 [104] :=
  ⟨(c3_dispatch ⟨"resume.PDF", [], .pages [pyStr "A"], .paragraphs []⟩).2.1 rfl,
   (c3_dispatch ⟨"notes.TXT", [104], .corrupt "x", .corrupt "y"⟩).2.2.2.1 rfl⟩

/-- Claim C4: with no credential configured, `score_resume` returns the
fixed mock result — score 75 with exactly two strengths, two weaknesses and
three improvement suggestions — for every input text, identically for every
provider behaviour, and performing zero provider calls. -/
theorem c4_mock_fallback :
    (∀ (text : PyStr) (provider : PyStr → ProviderOutcome),
        score_resume "" text provider = .ok mockResumeScore)
    ∧ score_resume_providerCalls "" = 0
    ∧ mockResumeScore.score = 75
    ∧ (∃ s1 s2 w1 w2 i1 i2 i3 : String,
        mockResumeScore.feedback =
          [("strengths", .arr [.str s1, .str s2]),
           ("weaknesses", .arr [.str w1, .str w2]),
           ("improvements", .arr [.str i1, .str i2, .str i3])]) := by
  refine ⟨fun text provider => rfl, rfl, rfl,
    ⟨"Strong education section", "Good experience details",
     "Missing quantifiable achievements", "Too verbose",
     "Add metrics to achievements", "Be more concise",
     "Consider adding skills section", rfl⟩⟩

/-- Claim C5: on the `.txt` path (to which every `.txt` upload is
dispatched), decoding the UTF-8 encoding of any string returns exactly that
string, a successful decode only ever returns the exact string whose
encoding the bytes are (so no silent substitution is possible), and bytes
that are no string's encoding fail with the decode error. -/
theorem c5_txt_decode_roundtrip (bs : List Nat) (s : PyStr) :
    (ValidPyStr s → bytesDecodeUtf8 (utf8Encode s) = .ok s)
    ∧ (bytesDecodeUtf8 bs = .ok s → ValidPyStr s ∧ utf8Encode s = bs)
    ∧ ((∀ t : PyStr, ValidPyStr t → utf8Encode t ≠ bs) →
        bytesDecodeUtf8 bs = .error .unicodeDecodeError)
    ∧ (∀ file : UploadedFile, fileExtension file.filename = "txt" →
        extract_text_from_resume file = bytesDecodeUtf8 file.bytes) := by
  refine ⟨?_, ?_, ?_, ?_⟩
  · intro h
    simp [bytesDecodeUtf8, utf8Decode_encode s h]
  · intro h
    unfold bytesDecodeUtf8 at h
    cases hd : utf8Decode bs with
    | none => rw [hd] at h; simp at h
    | some t =>
      rw [hd] at h
      simp only [Except.ok.injEq] at h
      subst h
      exact utf8Decode_sound hd
  · intro h
    unfold bytesDecodeUtf8
    cases hd : utf8Decode bs with
    | none => rfl
    | some t =>
      obtain ⟨hv, he⟩ := utf8Decode_sound hd
      exact absurd he (h t hv)
  · intro file h
    simp only [extract_text_from_resume]
    rw [h]
    simp

/-- Witness for C5: "hi" round-trips, and the lone byte 0xFF (no string's
encoding) raises the decode error. -/
theorem c5_txt_decode_roundtrip_witness :
    bytesDecodeUtf8 (utf8Encode (pyStr "hi")) = .ok (pyStr "hi")
    ∧ bytesDecodeUtf8 [0xFF] = .error .unicodeDecodeError :=
  ⟨(c5_txt_decode_roundtrip [] (pyStr "hi")).1 (by decide),
   (c5_txt_decode_roundtrip [0xFF] []).2.2.1 (fun t _ => utf8Encode_ne_ff t)⟩

/-- Claim C6 (code bug): the page loop joins page texts in document order
with no separator — pages "A" and "B" give exactly "AB", a page with no
text contributes nothing, and in general the result is the flattening of
the page texts.  The API-path extractor `extract_text_from_pdf`, however,
fails on every input, including this well-formed two-page document, because
it uses `PdfReader` as a context manager, which PyPDF2 does not support;
the loop's behaviour (`pdfPagesText`) is only reachable through the Gradio
path. -/
theorem c6_pdf_concatenation :
    pdfPagesText [pyStr "A", pyStr "B"] = pyStr "AB"
    ∧ pdfPagesText [pyStr "A", [], pyStr "B"] = pyStr "AB"
    ∧ (∀ ps : List PyStr, pdfPagesText ps = ps.flatten)
    ∧ extract_text_from_pdf (.pages [pyStr "A", pyStr "B"]) =
        .error (.httpException 400 "Error extracting text from PDF: __enter__") := by
  refine ⟨rfl, rfl, ?_, rfl⟩
  intro ps
  simp [pdfPagesText, foldl_append_eq_flatten]

/-- Claim C7: DOCX extraction joins the paragraph texts in document order
with a single newline — ["Hello", "World"] gives exactly "Hello\nWorld", a
single paragraph is returned bare, and each further paragraph contributes
one newline plus its text. -/
theorem c7_docx_newline_join :
    docxParagraphsText [pyStr "Hello", pyStr "World"] = pyStr "Hello\nWorld"
    ∧ (∀ (a b : PyStr) (l : List PyStr),
        docxParagraphsText (a :: b :: l) = a ++ pyStr "\n" ++ docxParagraphsText (b :: l))
    ∧ (∀ t : PyStr, docxParagraphsText [t] = t)
    ∧ (∀ ts, extract_text_from_docx (.paragraphs ts) = .ok (docxParagraphsText ts)) := by
  refine ⟨by decide, ?_, ?_, fun ts => rfl⟩
  · intro a b l
    simp [docxParagraphsText, List.intercalate]
  · intro t
    simp [docxParagraphsText, List.intercalate]

/-- Claim C8: on the live path every outcome is either a complete
`ResumeScore` or an `HTTPException(500, "Error scoring resume: ...")`
wrapping the cause — in particular any transport/provider failure and any
JSON-parse failure of the payload — the provider is invoked exactly once
(no retry), and the result depends only on that single invocation. -/
theorem c8_live_all_or_error (key : String) (text : PyStr)
    (provider : PyStr → ProviderOutcome) (hkey : key ≠ "") :
    (∀ e, score_resume key text provider = .error e →
        ∃ d, e = .httpException 500 ("Error scoring resume: " ++ d))
    ∧ (∀ m, provider (buildPrompt text) = .failure m →
        score_resume key text provider =
          .error (.httpException 500 ("Error scoring resume: " ++ m)))
    ∧ (provider (buildPrompt text) = .content none →
        score_resume key text provider =
          .error (.httpException 500
            ("Error scoring resume: " ++ PyErr.describe .jsonDecodeError)))
    ∧ score_resume_providerCalls key = 1
    ∧ (∀ q : PyStr → ProviderOutcome, q (buildPrompt text) = provider (buildPrompt text) →
        score_resume key text q = score_resume key text provider) := by
  refine ⟨?_, ?_, ?_, ?_, ?_⟩
  · intro e h
    rw [score_resume, if_neg hkey] at h
    unfold score_resume_live at h
    cases ha : liveScoreAttempt text provider with
    | ok r => rw [ha] at h; simp at h
    | error e0 =>
      rw [ha] at h
      simp only [Except.error.injEq] at h
      exact ⟨e0.describe, h.symm⟩
  · intro m h
    rw [score_resume, if_neg hkey]
    unfold score_resume_live liveScoreAttempt
    rw [h]
    rfl
  · intro h
    rw [score_resume, if_neg hkey]
    unfold score_resume_live liveScoreAttempt
    rw [h]
  · rw [score_resume_providerCalls, if_neg hkey]
  · intro q hq
    rw [score_resume, score_resume, if_neg hkey, if_neg hkey]
    unfold score_resume_live liveScoreAttempt
    rw [hq]

/-- Witness for C8: a transport failure surfaces as the wrapped 500. -/
theorem c8_live_all_or_error_witness :
    score_resume "k" [] (fun _ => .failure "boom") =
      .error (.httpException 500 ("Error scoring resume: " ++ "boom")) :=
  (c8_live_all_or_error "k" [] (fun _ => .failure "boom") (by decide)).2.1 "boom" rfl

/-- Claim C9, counterexample: a provider payload lacking `score` is, under
the claim, a validation problem that must surface as 4xx; the pipeline
returns it as status 500. -/
theorem c9_malformed_payload_is_500 :
    score_resume_api "k" ⟨"resume.txt", utf8Encode (pyStr "x"), .corrupt "p", .corrupt "d"⟩
        (fun _ => .content (some (.obj [("feedback", .obj [])]))) =
      .error (.httpException 500 ("Error scoring resume: " ++ PyErr.describe (.keyError "score")))
    ∧ 500 / 100 ≠ 4 :=
  ⟨rfl, by decide⟩

/-- Claim C9, amended: unsupported formats and PDF/DOCX extraction failures
carry a message and status 400; every error of the live scoring path —
transport, JSON parse, and malformed payloads alike — carries status 500;
and an invalid-encoding `.txt` upload raises a bare `UnicodeDecodeError`
with no HTTP classification at all (the framework turns the uncaught
exception into a 500), rather than a 4xx decode error. -/
theorem c9_error_classification (file : UploadedFile) (key : String) (text : PyStr)
    (provider : PyStr → ProviderOutcome) :
    (fileExtension file.filename ∉ ["pdf", "docx", "doc", "txt"] →
        extract_text_from_resume file =
          .error (.httpException 400
            "Unsupported file format. Please upload PDF, DOCX, or TXT file."))
    ∧ (∀ msg, fileExtension file.filename = "docx" → file.docx = .corrupt msg →
        extract_text_from_resume file =
          .error (.httpException 400 ("Error extracting text from DOCX: " ++ msg)))
    ∧ (fileExtension file.filename = "pdf" →
        extract_text_from_resume file =
          .error (.httpException 400 "Error extracting text from PDF: __enter__"))
    ∧ (key ≠ "" → ∀ e, score_resume key text provider = .error e →
        ∃ d, e = .httpException 500 d)
    ∧ (fileExtension file.filename = "txt" → utf8Decode file.bytes = none →
        extract_text_from_resume file = .error .unicodeDecodeError
          ∧ ∀ st d, (PyErr.unicodeDecodeError : PyErr) ≠ .httpException st d) := by
  refine ⟨?_, ?_, ?_, ?_, ?_⟩
  · intro h
    simp only [List.mem_cons, List.not_mem_nil, or_false, not_or] at h
    obtain ⟨h1, h2, h3, h4⟩ := h
    simp only [extract_text_from_resume]
    rw [if_neg h1, if_neg (not_or.mpr ⟨h2, h3⟩), if_neg h4]
  · intro msg h1 h2
    simp only [extract_text_from_resume]
    rw [h1, h2]
    simp [extract_text_from_docx]
  · intro h
    simp only [extract_text_from_resume]
    rw [if_pos h]
    rfl
  · intro hkey e h
    rw [score_resume, if_neg hkey] at h
    unfold score_resume_live at h
    cases ha : liveScoreAttempt text provider with
    | ok r => rw [ha] at h; simp at h
    | error e0 =>
      rw [ha] at h
      simp only [Except.error.injEq] at h
      exact ⟨_, h.symm⟩
  · intro h1 h2
    refine ⟨?_, fun st d => by simp⟩
    simp only [extract_text_from_resume]
    rw [h1]
    simp [bytesDecodeUtf8, h2]

/-- Witness for C9: an unknown extension is a 400; a live provider failure
is a 500; invalid UTF-8 on the txt path escapes with no status. -/
theorem c9_error_classification_witness :
    extract_text_from_resume ⟨"resume.rtf", [], .corrupt "p", .corrupt "d"⟩ =
      .error (.httpException 400
        "Unsupported file format. Please upload PDF, DOCX, or TXT file.")
    ∧ extract_text_from_resume ⟨"a.txt", [0xFF], .corrupt "p", .corrupt "d"⟩ =
      .error .unicodeDecodeError :=
  ⟨(c9_error_classification ⟨"resume.rtf", [], .corrupt "p", .corrupt "d"⟩ "k" []
      (fun _ => .failure "x")).1 (by decide),
   ((c9_error_classification ⟨"a.txt", [0xFF], .corrupt "p", .corrupt "d"⟩ "k" []
      (fun _ => .failure "x")).2.2.2.2 rfl rfl).1⟩

/-- Claim C10: the credential test is falsiness-based — an unset variable
and an empty-string variable both select the mock path (zero provider
calls) for every text, while any non-empty credential selects the live path
and its single provider call. -/
theorem c10_credential_falsiness (env : Option String) (text : PyStr)
    (provider : PyStr → ProviderOutcome) :
    ((env = none ∨ env = some "") →
        GROQ_API_KEY env = ""
          ∧ score_resume (GROQ_API_KEY env) text provider = .ok mockResumeScore
          ∧ score_resume_providerCalls (GROQ_API_KEY env) = 0)
    ∧ (∀ s, env = some s → s ≠ "" →
        score_resume (GROQ_API_KEY env) text provider = score_resume_live text provider
          ∧ score_resume_providerCalls (GROQ_API_KEY env) = 1) := by
  constructor
  · rintro (h | h) <;> subst h <;> exact ⟨rfl, rfl, rfl⟩
  · rintro s rfl hs
    constructor
    · rw [GROQ_API_KEY, Option.getD_some, score_resume, if_neg hs]
    · rw [GROQ_API_KEY, Option.getD_some, score_resume_providerCalls, if_neg hs]

/-- Witness for C10: the empty-string credential yields the mock result;
the credential "gsk" yields the live path with one provider call. -/
theorem c10_credential_falsiness_witness :
    score_resume (GROQ_API_KEY (some "")) [] (fun _ => .failure "net") = .ok mockResumeScore
    ∧ score_resume_providerCalls (GROQ_API_KEY (some "gsk")) = 1 :=
  ⟨((c10_credential_falsiness (some "") [] (fun _ => .failure "net")).1 (Or.inr rfl)).2.1,
   ((c10_credential_falsiness (some "gsk") [] (fun _ => .failure "net")).2 "gsk" rfl
      (by decide)).2⟩

end PortfolioAI
